import Mathlib

/-!
Shallow embedding of the VeriDocu server authentication and verification
routes (Express + PostgreSQL). Database tables are modelled as lists of
rows, SQL DELETE/SELECT/UPDATE as list filter/find/map, and each route
handler as a pure function from the database state and request fields to
the new state and an HTTP response. Time is measured in minutes, so the
SQL expression NOW() + INTERVAL of ten minutes becomes `now + 10`.
-/

/-- A row of the otp_codes table: email, 6-digit code, purpose tag and
expiry timestamp (absolute minutes). created_at is irrelevant to the
handlers and omitted. -/
structure OtpRow where
  email : String
  code : String
  purpose : String
  expiresAt : Nat
deriving Repr, DecidableEq

/-- A row of the users table. `password` is the stored secret column
(password or password_hash); NULL is `none`. -/
structure UserRow where
  id : Nat
  email : String
  password : Option String
  accountType : String
  name : Option String
deriving Repr, DecidableEq

/-- A row of the candidates table (the columns the auth routes touch). -/
structure CandidateRow where
  userId : Nat
  fullName : Option String
deriving Repr, DecidableEq

/-- A row of the companies table (the columns the routes touch). -/
structure CompanyRow where
  id : Nat
  userId : Nat
  name : Option String
  slug : String
deriving Repr, DecidableEq

/-- The database state seen by the auth routes. -/
structure AuthDB where
  users : List UserRow
  candidates : List CandidateRow
  companies : List CompanyRow
  otps : List OtpRow
  nextUserId : Nat
  nextCompanyId : Nat
deriving Repr, DecidableEq

/-- Environment configuration read by the handlers. -/
structure Env where
  requireOtpOnRegister : Bool
  enableOtpOnLogin : Bool
  recaptchaConfigured : Bool
  smtpHost : Option String
  smtpUser : Option String
deriving Repr, DecidableEq

/-- The registrationData object echoed between register and verify-email. -/
structure RegistrationData where
  name : String
  hashedPassword : String
  accountType : String
  companyName : Option String
deriving Repr, DecidableEq

/-- An HTTP JSON response. Fields a handler does not set stay at their
defaults; `success` is `none` for bodies that carry no success flag. -/
structure ApiResponse where
  status : Nat
  success : Option Bool := none
  message : String := ""
  token : Option String := none
  mailSent : Option Bool := none
  otpRequired : Option Bool := none
  userId : Option Nat := none
  userAccountType : Option String := none
  registrationData : Option RegistrationData := none
deriving Repr, DecidableEq

/-- Modelled from the spec: the AppError class and central error middleware
(middleware/errorHandler.js is not in the sources; only the routes that
construct AppError are). Per spec section 7 an AppError with a status maps
to a JSON body with success false and the message. -/
def appError (msg : String) (status : Nat) : ApiResponse :=
  { status := status, success := some false, message := msg }

/-- Response produced when express-validator reports errors: the handlers
answer status 400 with success false and the errors array. The array is a
function of the failed validators only, summarised here by a fixed body. -/
def validationErrorResponse : ApiResponse :=
  { status := 400, success := some false, message := "Validation failed" }

/-- ASCII lowercase of one character, as JS toLowerCase acts on ASCII. -/
def lowerChar (c : Char) : Char :=
  if 'A' ≤ c && c ≤ 'Z' then Char.ofNat (c.toNat + 32) else c

/-- JS String.prototype.toLowerCase over the character list. -/
def toLowerStr (s : String) : String :=
  String.mk (s.data.map lowerChar)

/-- JS String.prototype.trim: strip leading and trailing whitespace. -/
def trimStr (s : String) : String :=
  String.mk ((s.data.dropWhile Char.isWhitespace).reverse.dropWhile Char.isWhitespace |>.reverse)

/-- Split a character list at every occurrence of the separator. -/
def splitChar (sep : Char) : List Char → List (List Char)
  | [] => [[]]
  | c :: rest =>
    let r := splitChar sep rest
    if c = sep then [] :: r
    else
      match r with
      | [] => [[c]]
      | g :: gs => (c :: g) :: gs

/-- Abstraction of the express-validator isEmail check (library code, not
part of this repository). The routes depend only on its Boolean verdict;
no claim depends on exactly which strings pass. -/
def isEmail (s : String) : Bool :=
  match splitChar '@' s.data with
  | [l, d] => !l.isEmpty && !d.isEmpty && d.contains '.' && !(s.data.any Char.isWhitespace)
  | _ => false

/-- normalizeEmailForOtp from auth.routes.js: trim and lowercase only.
The JS guard returning a falsy email unchanged coincides with trim and
lowercase of the empty string. -/
def normalizeEmailForOtp (email : String) : String :=
  toLowerStr (trimStr email)

/-- Abstraction of bcrypt.hash with a fresh salt: the routes only store
and later compare the digest, never inspect it. -/
def bcryptHash (password : String) : String :=
  "bcrypt$" ++ password

/-- bcrypt.compare of a candidate password against the stored column value
(false when the stored value is NULL). -/
def bcryptCheck (password : String) (stored : Option String) : Bool :=
  match stored with
  | none => false
  | some h => h == bcryptHash password

/-- jwt.sign with the user id as payload; the routes only pass the token
through, never decode it in these flows. -/
def generateToken (id : Nat) : String :=
  "jwt." ++ toString id

/-- email.split at the at-sign, index 0. -/
def emailLocalPart (email : String) : String :=
  String.mk ((splitChar '@' email.data).headD email.data)

/-- Collapse runs of dashes left by the slug regex replacement. -/
def collapseDashes : List Char → List Char
  | [] => []
  | c :: rest =>
    match collapseDashes rest with
    | [] => [c]
    | d :: ds => if c = '-' && d = '-' then d :: ds else c :: d :: ds

/-- Is the character in the class a-z or 0-9 (after lowercasing)? -/
def isSlugChar (c : Char) : Bool :=
  (('a' ≤ c && c ≤ 'z') || ('0' ≤ c && c ≤ '9'))

/-- toLowerCase, replace runs outside a-z0-9 by a dash, strip leading and
trailing dashes: the slug expression in the register and otp routes. -/
def slugify (s : String) : String :=
  let lowered := (toLowerStr s).data.map (fun c => if isSlugChar c then c else '-')
  let collapsed := collapseDashes lowered
  String.mk ((collapsed.dropWhile (fun c => c = '-')).reverse.dropWhile (fun c => c = '-') |>.reverse)

/-- Outcome of the external email provider for one send attempt. -/
inductive MailOutcome where
  | delivered (msgId : String)
  | transportUnavailable
  | sendFailed (err : String)
deriving Repr, DecidableEq

/-- The structured value sendOtpEmail returns to its caller. -/
inductive MailResult where
  | skipped
  | sent (msgId : String)
  | failed (err : String)
deriving Repr, DecidableEq

/-- sendOtpEmail from utils/mailer.js. The Except layer records whether the
function throws: every path catches provider errors and returns a
structured MailResult, so every branch is Except.ok. With no SMTP host or
user configured it returns the skipped marker; with a transport that fails
verification or a sendMail error it returns the failed form with the
error; on success it returns the sent form. -/
def sendOtpEmail (env : Env) (outcome : MailOutcome) : Except String MailResult :=
  if env.smtpHost.isNone || env.smtpUser.isNone then
    Except.ok MailResult.skipped
  else
    match outcome with
    | MailOutcome.delivered msgId => Except.ok (MailResult.sent msgId)
    | MailOutcome.transportUnavailable =>
        Except.ok (MailResult.failed "No working SMTP transport could be created (verify failed)")
    | MailOutcome.sendFailed err => Except.ok (MailResult.failed err)

/-- Did the caller observe emailResult.ok as truthy? -/
def mailDelivered (env : Env) (outcome : MailOutcome) : Bool :=
  match sendOtpEmail env outcome with
  | Except.ok (MailResult.sent _) => true
  | _ => false

/-- The SELECT used by every OTP verification: rows of otp_codes matching
email, code and purpose with expires_at strictly in the future. -/
def otpLookup (otps : List OtpRow) (email code purpose : String) (now : Nat) : List OtpRow :=
  otps.filter (fun r => decide (r.email = email ∧ r.code = code ∧ r.purpose = purpose ∧ now < r.expiresAt))

/-- DELETE FROM otp_codes WHERE email = e. -/
def deleteOtpsByEmail (otps : List OtpRow) (email : String) : List OtpRow :=
  otps.filter (fun r => decide (¬ r.email = email))

/-- DELETE FROM otp_codes WHERE email = e AND purpose = p. -/
def deleteOtpsByEmailPurpose (otps : List OtpRow) (email purpose : String) : List OtpRow :=
  otps.filter (fun r => decide (¬(r.email = email ∧ r.purpose = purpose)))

/-- SELECT ... FROM users WHERE email = e (first row). -/
def findUserByEmail (db : AuthDB) (email : String) : Option UserRow :=
  db.users.find? (fun u => u.email == email)

/-- Does a users row with this email exist? -/
def userEmailExists (db : AuthDB) (email : String) : Bool :=
  db.users.any (fun u => u.email == email)

/-- POST /api/auth/otp/request. The code is generated randomly in the
handler and passed here as a parameter; `mail` is the provider outcome.
Missing email answers 400; purpose register with an existing user 409;
purpose login with no user 404. Otherwise: existing codes for the
normalized email are deleted, one new row is inserted with expiry now+10,
the email send is attempted, and the handler always answers 200 success. -/
def otpRequest (env : Env) (db : AuthDB) (now : Nat) (email purpose code : String)
    (mail : MailOutcome) : AuthDB × ApiResponse :=
  if email = "" then
    (db, appError "Email is required" 400)
  else
    let normEmail := normalizeEmailForOtp email
    let exists_ := userEmailExists db email
    if purpose = "register" && exists_ then
      (db, appError "User already exists" 409)
    else if purpose = "login" && !exists_ then
      (db, appError "User not found; please register first" 404)
    else
      let otps1 := deleteOtpsByEmail db.otps normEmail
      let newRow : OtpRow := { email := normEmail, code := code, purpose := purpose, expiresAt := now + 10 }
      let db2 := { db with otps := otps1 ++ [newRow] }
      let emailSent := mailDelivered env mail
      (db2,
        { status := 200, success := some true,
          message := if emailSent then "OTP sent to your email"
                     else "OTP generated (check server console in development)",
          mailSent := some emailSent })

/-- POST /api/auth/otp/verify. Looks up the code under the normalized
email, deletes the consumed codes for that email and purpose, then for
purpose register inserts a users row with a NULL password and the
client-supplied accountType (no validation of the value) plus a profile
row; for other purposes requires an existing user. -/
def otpVerify (db : AuthDB) (now : Nat) (email code purpose : String)
    (name : Option String) (accountType : String) : AuthDB × ApiResponse :=
  if email = "" || code = "" then
    (db, appError "Email and code are required" 400)
  else
    let normEmail := normalizeEmailForOtp email
    if (otpLookup db.otps normEmail code purpose now).length = 0 then
      (db, appError "Invalid or expired code" 400)
    else
      let db1 := { db with otps := deleteOtpsByEmailPurpose db.otps normEmail purpose }
      let user? := db1.users.find? (fun u => u.email == email || u.email == normEmail)
      if purpose = "register" then
        match user? with
        | some _ => (db1, appError "User already exists" 409)
        | none =>
          let uid := db1.nextUserId
          let newUser : UserRow :=
            { id := uid, email := email, password := none, accountType := accountType, name := name }
          let db2 := { db1 with users := db1.users ++ [newUser], nextUserId := uid + 1 }
          let db3 :=
            if accountType = "candidate" then
              { db2 with candidates := db2.candidates ++ [{ userId := uid, fullName := none }] }
            else if accountType = "company" then
              let slug := slugify (name.getD (emailLocalPart email))
              { db2 with
                companies := db2.companies ++ [{ id := db2.nextCompanyId, userId := uid, name := none, slug := slug }],
                nextCompanyId := db2.nextCompanyId + 1 }
            else db2
          (db3,
            { status := 200, success := some true, token := some (generateToken uid),
              userId := some uid, userAccountType := some accountType })
      else
        match user? with
        | none => (db1, appError "User not found" 404)
        | some u =>
          (db1,
            { status := 200, success := some true, token := some (generateToken u.id),
              userId := some u.id,
              userAccountType := some (if u.accountType = "" then accountType else u.accountType) })

/-- The validator chain of POST /api/auth/register: name nonempty after the
trim sanitizer, email shape, password length at least 8, accountType in
the candidate/company whitelist. Any failure yields the 400 errors body. -/
def validRegisterInput (name email password accountType : String) : Bool :=
  trimStr name ≠ "" && isEmail email && password.length ≥ 8 &&
    (accountType = "candidate" || accountType = "company")

/-- Create the user plus profile rows shared by the immediate-register and
verify-email paths: INSERT INTO users, then a companies row (name from
companyName or name, slugified) for company accounts or a candidates row
(full_name) for candidate accounts. -/
def createAccount (db : AuthDB) (email hashedPassword accountType name : String)
    (companyName : Option String) : AuthDB × Nat :=
  let uid := db.nextUserId
  let newUser : UserRow :=
    { id := uid, email := email, password := some hashedPassword, accountType := accountType, name := some name }
  let db1 := { db with users := db.users ++ [newUser], nextUserId := uid + 1 }
  let db2 :=
    if accountType = "company" then
      let cname := companyName.getD name
      { db1 with
        companies := db1.companies ++ [{ id := db1.nextCompanyId, userId := uid, name := some cname, slug := slugify cname }],
        nextCompanyId := db1.nextCompanyId + 1 }
    else if accountType = "candidate" then
      { db1 with candidates := db1.candidates ++ [{ userId := uid, fullName := some name }] }
    else db1
  (db2, uid)

/-- POST /api/auth/register. After validation, recaptcha and the duplicate
check: with REQUIRE_OTP_ON_REGISTER unset the account is created at once
(201 with token); with it set, existing register-purpose codes for the raw
(unnormalized) email are deleted, a new code row is inserted with the raw
email and expiry now+10, the email send is attempted, and the handler
answers 201 echoing the registrationData for verify-email. -/
def register (env : Env) (db : AuthDB) (now : Nat)
    (name email password accountType : String) (companyName : Option String)
    (recaptchaOk : Bool) (code : String) (mail : MailOutcome) : AuthDB × ApiResponse :=
  if !(validRegisterInput name email password accountType) then
    (db, validationErrorResponse)
  else
    let name := trimStr name
    if env.recaptchaConfigured && !recaptchaOk then
      (db, appError "reCAPTCHA verification failed" 400)
    else if userEmailExists db email then
      (db, appError "User already exists with this email" 409)
    else
      let hashedPassword := bcryptHash password
      if !env.requireOtpOnRegister then
        let ca := createAccount db email hashedPassword accountType name companyName
        (ca.1,
          { status := 201, success := some true, message := "Account created successfully!",
            token := some (generateToken ca.2), userId := some ca.2, userAccountType := some accountType })
      else
        let otps1 := deleteOtpsByEmailPurpose db.otps email "register"
        let newRow : OtpRow := { email := email, code := code, purpose := "register", expiresAt := now + 10 }
        let db2 := { db with otps := otps1 ++ [newRow] }
        let _ := sendOtpEmail env mail
        (db2,
          { status := 201, success := some true,
            message := "Verification code sent to your email. Please verify to complete registration.",
            registrationData := some { name := name, hashedPassword := hashedPassword,
                                       accountType := accountType, companyName := companyName } })

/-- POST /api/auth/verify-email. The code lookup and the consuming delete
use the raw submitted email with no normalization; the accountType inside
the echoed registrationData is inserted without validation. -/
def verifyEmail (db : AuthDB) (now : Nat) (email code : String)
    (rd : Option RegistrationData) : AuthDB × ApiResponse :=
  if email = "" || code = "" then
    (db, appError "Email and verification code are required" 400)
  else
    match rd with
    | none => (db, appError "Registration data is required" 400)
    | some r =>
      if r.name = "" || r.hashedPassword = "" || r.accountType = "" then
        (db, appError "Registration data is required" 400)
      else if (otpLookup db.otps email code "register" now).length = 0 then
        (db, appError "Invalid or expired verification code" 400)
      else
        let db1 := { db with otps := deleteOtpsByEmailPurpose db.otps email "register" }
        if userEmailExists db1 email then
          (db1, appError "User already exists with this email" 409)
        else
          let ca := createAccount db1 email r.hashedPassword r.accountType r.name r.companyName
          (ca.1,
            { status := 200, success := some true,
              message := "Email verified and account created successfully!",
              token := some (generateToken ca.2), userId := some ca.2,
              userAccountType := some r.accountType })

/-- POST /api/auth/login. Credential check, then with ENABLE_OTP_ON_LOGIN
set: all existing codes for the raw email are deleted, a 2fa code row is
inserted with the raw email, the email send is fire-and-forget, and the
response carries otpRequired with no token. Without the flag a token is
issued directly. The display-name resolution only decorates the response
and is summarised by the stored name. -/
def login (env : Env) (db : AuthDB) (now : Nat) (email password : String)
    (recaptchaOk : Bool) (code : String) : AuthDB × ApiResponse :=
  if !(isEmail email) || password = "" then
    (db, validationErrorResponse)
  else if env.recaptchaConfigured && !recaptchaOk then
    (db, appError "reCAPTCHA verification failed" 400)
  else
    match findUserByEmail db email with
    | none => (db, appError "Invalid credentials" 401)
    | some u =>
      if !(bcryptCheck password u.password) then
        (db, appError "Invalid credentials" 401)
      else if env.enableOtpOnLogin then
        let otps1 := deleteOtpsByEmail db.otps email
        let newRow : OtpRow := { email := email, code := code, purpose := "2fa", expiresAt := now + 10 }
        let db2 := { db with otps := otps1 ++ [newRow] }
        (db2,
          { status := 200, success := some true, message := "OTP sent to email",
            otpRequired := some true })
      else
        (db,
          { status := 200, success := some true, token := some (generateToken u.id),
            userId := some u.id, userAccountType := some u.accountType })

/-- POST /api/auth/verify-login-otp. Lookup and consuming delete use the
raw email with purpose 2fa; then the user row must exist. -/
def verifyLoginOtp (db : AuthDB) (now : Nat) (email code : String) : AuthDB × ApiResponse :=
  if !(isEmail email) || code = "" then
    (db, validationErrorResponse)
  else if (otpLookup db.otps email code "2fa" now).length = 0 then
    (db, appError "Invalid or expired verification code" 400)
  else
    let db1 := { db with otps := deleteOtpsByEmailPurpose db.otps email "2fa" }
    match findUserByEmail db1 email with
    | none => (db1, appError "User not found" 404)
    | some u =>
      (db1,
        { status := 200, success := some true, message := "Login successful!",
          token := some (generateToken u.id), userId := some u.id,
          userAccountType := some u.accountType })

/-- The generic forgot-password body, identical on both branches. -/
def forgotPasswordMessage : String :=
  "If an account exists, a reset code has been sent to your email"

/-- POST /api/auth/forgot-password. For an unknown email it answers the
generic success body without touching the database; for a known one it
deletes prior reset codes for the raw email, inserts a new row with
expiry now+10, attempts the email send, and answers the same body. -/
def forgotPassword (env : Env) (db : AuthDB) (now : Nat) (email code : String)
    (mail : MailOutcome) : AuthDB × ApiResponse :=
  if !(isEmail email) then
    (db, validationErrorResponse)
  else if !(userEmailExists db email) then
    (db, { status := 200, success := some true, message := forgotPasswordMessage })
  else
    let otps1 := deleteOtpsByEmailPurpose db.otps email "reset-password"
    let newRow : OtpRow := { email := email, code := code, purpose := "reset-password", expiresAt := now + 10 }
    let db2 := { db with otps := otps1 ++ [newRow] }
    let _ := sendOtpEmail env mail
    (db2, { status := 200, success := some true, message := forgotPasswordMessage })

/-- POST /api/auth/reset-password. Lookup with the raw email and purpose
reset-password; on match the password column is updated and the used
codes deleted. -/
def resetPassword (db : AuthDB) (now : Nat) (email code newPassword : String) : AuthDB × ApiResponse :=
  if !(isEmail email) || code = "" || newPassword.length < 6 then
    (db, validationErrorResponse)
  else if (otpLookup db.otps email code "reset-password" now).length = 0 then
    (db, appError "Invalid or expired reset code" 400)
  else
    match findUserByEmail db email with
    | none => (db, appError "User not found" 404)
    | some u =>
      let users1 := db.users.map (fun w =>
        if w.id = u.id then { w with password := some (bcryptHash newPassword) } else w)
      let otps1 := deleteOtpsByEmailPurpose db.otps email "reset-password"
      let db1 := { db with users := users1, otps := otps1 }
      (db1, { status := 200, success := some true, message := "Password reset successfully" })

/-- A row of the employment_history table (the columns the verification
endpoints touch). -/
structure EmploymentRow where
  id : Nat
  companyId : Option Nat
  companyName : Option String
  verificationStatus : String
  verifiedBy : Option Nat
  rejectionReason : Option String
  notes : Option String
deriving Repr, DecidableEq

/-- The database state seen by the employment-verification endpoints. -/
structure VerifState where
  employments : List EmploymentRow
  companies : List CompanyRow
deriving Repr, DecidableEq

/-- UPDATE employment_history SET ... WHERE id = empId, applying f to the
matching rows. -/
def updateEmployment (l : List EmploymentRow) (empId : Nat)
    (f : EmploymentRow → EmploymentRow) : List EmploymentRow :=
  l.map (fun e => if e.id = empId then f e else e)

/-- POST /api/admin/employments/:id/verify. The UPDATE is guarded only by
the row id: any matching record, whatever its current status, is set to
verified with the actor and notes recorded; 404 only when no row has the
id. -/
def adminVerifyEmployment (st : VerifState) (empId actorId : Nat)
    (notes : Option String) : VerifState × ApiResponse :=
  if !(st.employments.any (fun e => e.id == empId)) then
    (st, appError "Employment record not found" 404)
  else
    let emps := updateEmployment st.employments empId (fun e =>
      { e with verificationStatus := "verified", verifiedBy := some actorId, notes := notes })
    let st1 := { st with employments := emps }
    (st1, { status := 200, success := some true, message := "Employment verified successfully" })

/-- POST /api/admin/employments/:id/reject. No check that a reason was
supplied and no check of the current status: any record with the id is
set to rejected, storing the reason column as given (possibly NULL). -/
def adminRejectEmployment (st : VerifState) (empId actorId : Nat)
    (reason : Option String) : VerifState × ApiResponse :=
  if !(st.employments.any (fun e => e.id == empId)) then
    (st, appError "Employment record not found" 404)
  else
    let emps := updateEmployment st.employments empId (fun e =>
      { e with verificationStatus := "rejected", verifiedBy := some actorId, rejectionReason := reason })
    let st1 := { st with employments := emps }
    (st1, { status := 200, success := some true, message := "Employment rejected" })

/-- SQL LOWER(x) = LOWER(y): NULL on either side never compares equal. -/
def lowerEqOpt (a b : Option String) : Bool :=
  match a, b with
  | some x, some y => toLowerStr x == toLowerStr y
  | _, _ => false

/-- The ownership test of the company verification endpoints: the row with
the request id must belong to the company by id or by case-insensitive
name. -/
def employmentOwnedBy (st : VerifState) (empId : Nat) (comp : CompanyRow) : Bool :=
  st.employments.any (fun e =>
    e.id == empId && (e.companyId == some comp.id || lowerEqOpt e.companyName comp.name))

/-- POST /api/companies/verification-requests/:id/approve (part_006).
Resolves the company of the acting user, checks ownership by id or
case-insensitive name, then updates the status to verified with no check
of the current status. The part_006 bodies carry only a message. -/
def companyApproveVerification (st : VerifState) (empId userId : Nat)
    (notes : Option String) : VerifState × ApiResponse :=
  match st.companies.find? (fun c => c.userId == userId) with
  | none => (st, { status := 404, message := "Company not found" })
  | some comp =>
    if !(employmentOwnedBy st empId comp) then
      (st, { status := 404, message := "Employment record not found or does not belong to your company" })
    else
      let emps := updateEmployment st.employments empId (fun e =>
        { e with verificationStatus := "verified", verifiedBy := some userId, notes := notes })
      let st1 := { st with employments := emps }
      (st1, { status := 200, message := "Employment verified successfully" })

/-- Is the JS value of the reason field truthy? undefined, null and the
empty string are falsy. -/
def reasonPresent (reason : Option String) : Bool :=
  match reason with
  | none => false
  | some s => s ≠ ""

/-- POST /api/companies/verification-requests/:id/reject (part_006).
A missing or empty reason answers 400 before any lookup; otherwise the
ownership check runs and the status is set to rejected with the reason,
again with no check of the current status. -/
def companyRejectVerification (st : VerifState) (empId userId : Nat)
    (reason : Option String) : VerifState × ApiResponse :=
  if !(reasonPresent reason) then
    (st, { status := 400, message := "Rejection reason is required" })
  else
    match st.companies.find? (fun c => c.userId == userId) with
    | none => (st, { status := 404, message := "Company not found" })
    | some comp =>
      if !(employmentOwnedBy st empId comp) then
        (st, { status := 404, message := "Employment record not found or does not belong to your company" })
      else
        let emps := updateEmployment st.employments empId (fun e =>
          { e with verificationStatus := "rejected", verifiedBy := some userId, rejectionReason := reason })
        let st1 := { st with employments := emps }
        (st1, { status := 200, message := "Verification request rejected" })

/-- Number of stored (and hence unconsumed) codes for one (email, purpose)
key. -/
def activeKeyCount (otps : List OtpRow) (e p : String) : Nat :=
  (otps.filter (fun r => decide (r.email = e ∧ r.purpose = p))).length

/-- A small concrete database holding one stored register-purpose code,
used by the concrete instantiations below. -/
def sampleOtpDb : AuthDB :=
  { users := [], candidates := [], companies := [],
    otps := [{ email := "eve@x.com", code := "111111", purpose := "register", expiresAt := 10 }],
    nextUserId := 1, nextCompanyId := 1 }

/-- An empty database, used by the concrete instantiations below. -/
def emptyAuthDb : AuthDB :=
  { users := [], candidates := [], companies := [], otps := [], nextUserId := 1, nextCompanyId := 1 }

/-- A development environment: OTP required on register, no recaptcha and
no SMTP transport configured. -/
def sampleEnv : Env :=
  { requireOtpOnRegister := true, enableOtpOnLogin := false,
    recaptchaConfigured := false, smtpHost := none, smtpUser := none }

theorem mem_otpLookup {l : List OtpRow} {r : OtpRow} {e c p : String} {now : Nat} :
    r ∈ otpLookup l e c p now ↔
      r ∈ l ∧ r.email = e ∧ r.code = c ∧ r.purpose = p ∧ now < r.expiresAt := by
  simp [otpLookup, List.mem_filter, and_assoc]

theorem otpLookup_delete_same (l : List OtpRow) (e c p : String) (now : Nat) :
    otpLookup (deleteOtpsByEmailPurpose l e p) e c p now = [] := by
  rw [List.eq_nil_iff_forall_not_mem]
  intro r hr
  rw [mem_otpLookup] at hr
  obtain ⟨hmem, he, _, hp, _⟩ := hr
  simp [deleteOtpsByEmailPurpose, List.mem_filter] at hmem
  rcases hmem.2 with h | h
  · exact h he
  · exact h hp

theorem filter_key_delete_email (l : List OtpRow) (row : OtpRow) :
    (deleteOtpsByEmail l row.email).filter
      (fun r => decide (r.email = row.email ∧ r.purpose = row.purpose)) = [] := by
  rw [List.filter_eq_nil_iff]
  intro r hr
  simp [deleteOtpsByEmail, List.mem_filter] at hr
  simp [hr]

theorem filter_key_delete_key (l : List OtpRow) (row : OtpRow) :
    (deleteOtpsByEmailPurpose l row.email row.purpose).filter
      (fun r => decide (r.email = row.email ∧ r.purpose = row.purpose)) = [] := by
  rw [List.filter_eq_nil_iff]
  intro r hr
  simp [deleteOtpsByEmailPurpose, List.mem_filter] at hr
  simp
  intro he
  rcases hr.2 with h | h
  · exact absurd he h
  · exact h

theorem activeKeyCount_delete_insert_email (l : List OtpRow) (row : OtpRow) :
    activeKeyCount (deleteOtpsByEmail l row.email ++ [row]) row.email row.purpose = 1 := by
  simp only [activeKeyCount, List.filter_append, List.length_append,
    filter_key_delete_email]
  simp

theorem activeKeyCount_delete_insert_key (l : List OtpRow) (row : OtpRow) :
    activeKeyCount (deleteOtpsByEmailPurpose l row.email row.purpose ++ [row])
      row.email row.purpose = 1 := by
  simp only [activeKeyCount, List.filter_append, List.length_append,
    filter_key_delete_key]
  simp

theorem otpRequest_success_eq (env : Env) (db : AuthDB) (now : Nat) (e p c : String)
    (m : MailOutcome) (h : (otpRequest env db now e p c m).2.status = 200) :
    (otpRequest env db now e p c m).1.otps
      = deleteOtpsByEmail db.otps (normalizeEmailForOtp e)
        ++ [{ email := normalizeEmailForOtp e, code := c, purpose := p, expiresAt := now + 10 }] := by
  unfold otpRequest at *
  simp only [] at h ⊢
  split at h
  · simp [appError] at h
  · split at h
    · simp [appError] at h
    · split at h
      · simp [appError] at h
      · rename_i hne hreg hlog
        simp [appError] at hreg hlog
        have hA2 : ¬((decide (p = "register") && userEmailExists db e) = true) := by
          simp [Bool.and_eq_true, decide_eq_true_eq]
          intro hp
          simp [hreg hp]
        have hB2 : ¬((decide (p = "login") && !userEmailExists db e) = true) := by
          simp [Bool.and_eq_true, decide_eq_true_eq, Bool.not_eq_true']
          intro hp
          simp [hlog hp]
        rw [if_neg hne, if_neg hA2, if_neg hB2]

theorem otpRequest_path (env : Env) (db : AuthDB) (now : Nat) (e p c : String)
    (m : MailOutcome) (h1 : ¬ e = "")
    (h2 : ¬(p = "register" ∧ userEmailExists db e = true))
    (h3 : ¬(p = "login" ∧ userEmailExists db e = false)) :
    otpRequest env db now e p c m
      = ({ db with otps := deleteOtpsByEmail db.otps (normalizeEmailForOtp e)
             ++ [{ email := normalizeEmailForOtp e, code := c, purpose := p, expiresAt := now + 10 }] },
         { status := 200, success := some true,
           message := if mailDelivered env m then "OTP sent to your email"
                      else "OTP generated (check server console in development)",
           mailSent := some (mailDelivered env m) }) := by
  unfold otpRequest
  simp only []
  have hA2 : ¬((decide (p = "register") && userEmailExists db e) = true) := by
    simp [Bool.and_eq_true, decide_eq_true_eq]
    intro hp
    cases hu : userEmailExists db e
    · rfl
    · exact absurd ⟨hp, hu⟩ h2
  have hB2 : ¬((decide (p = "login") && !userEmailExists db e) = true) := by
    simp [Bool.and_eq_true, decide_eq_true_eq, Bool.not_eq_true']
    intro hp
    cases hu : userEmailExists db e
    · exact absurd ⟨hp, hu⟩ h3
    · rfl
  rw [if_neg h1, if_neg hA2, if_neg hB2]

theorem otpVerify_success_otps (db : AuthDB) (now : Nat) (e c p : String)
    (nm : Option String) (a : String)
    (h : (otpVerify db now e c p nm a).2.status = 200) :
    (otpVerify db now e c p nm a).1.otps
      = deleteOtpsByEmailPurpose db.otps (normalizeEmailForOtp e) p := by
  unfold otpVerify at *
  simp only [] at h ⊢
  split at h
  · simp [appError] at h
  · split at h
    · simp [appError] at h
    · rename_i hg hl
      split at h
      · rename_i hp
        split at h
        · simp [appError] at h
        · rename_i heq
          rw [if_neg hg, if_neg hl, if_pos hp]
          split
          · rfl
          · split <;> rfl
      · rename_i hp
        split at h
        · simp [appError] at h
        · rename_i u heq
          rw [if_neg hg, if_neg hl, if_neg hp]

theorem otpVerify_success_guards (db : AuthDB) (now : Nat) (e c p : String)
    (nm : Option String) (a : String)
    (h : (otpVerify db now e c p nm a).2.status = 200) :
    ¬ e = "" ∧ ¬ c = "" := by
  unfold otpVerify at h
  simp only [] at h
  split at h
  · simp [appError] at h
  · rename_i hg
    simpa using hg

theorem otpVerify_register_success_users (db : AuthDB) (now : Nat) (e c : String)
    (nm : Option String) (a : String)
    (h : (otpVerify db now e c "register" nm a).2.status = 200) :
    (otpVerify db now e c "register" nm a).1.users
      = db.users ++ [{ id := db.nextUserId, email := e, password := none, accountType := a, name := nm }] := by
  unfold otpVerify at *
  simp only [] at h ⊢
  split at h
  · simp [appError] at h
  · split at h
    · simp [appError] at h
    · rename_i hg hl
      split at h
      · rename_i hp
        split at h
        · simp [appError] at h
        · rw [if_neg hg, if_neg hl, if_pos hp]
          split
          · rfl
          · split <;> rfl
      · rename_i hp
        exact absurd trivial hp

theorem otpVerify_invalid (db : AuthDB) (now : Nat) (e c p : String)
    (nm : Option String) (a : String) (h1 : ¬ e = "") (h2 : ¬ c = "")
    (h3 : otpLookup db.otps (normalizeEmailForOtp e) c p now = []) :
    otpVerify db now e c p nm a = (db, appError "Invalid or expired code" 400) := by
  unfold otpVerify
  simp only []
  have hg : ¬((decide (e = "") || decide (c = "")) = true) := by simp [h1, h2]
  have hl : (otpLookup db.otps (normalizeEmailForOtp e) c p now).length = 0 := by simp [h3]
  rw [if_neg hg, if_pos hl]

theorem createAccount_otps (db : AuthDB) (e h a n : String) (cn : Option String) :
    (createAccount db e h a n cn).1.otps = db.otps := by
  unfold createAccount
  simp only []
  split
  · rfl
  · split <;> rfl

theorem createAccount_users (db : AuthDB) (e h a n : String) (cn : Option String) :
    (createAccount db e h a n cn).1.users
      = db.users ++ [{ id := db.nextUserId, email := e, password := some h, accountType := a, name := some n }] := by
  unfold createAccount
  simp only []
  split
  · rfl
  · split <;> rfl

theorem register_otp_path (env : Env) (db : AuthDB) (now : Nat)
    (nm e pw a : String) (cn : Option String) (rok : Bool) (c : String) (m : MailOutcome)
    (hv : validRegisterInput nm e pw a = true)
    (hr : (env.recaptchaConfigured && !rok) = false)
    (hu : userEmailExists db e = false)
    (hreq : env.requireOtpOnRegister = true) :
    register env db now nm e pw a cn rok c m
      = ({ db with otps := deleteOtpsByEmailPurpose db.otps e "register"
             ++ [{ email := e, code := c, purpose := "register", expiresAt := now + 10 }] },
         { status := 201, success := some true,
           message := "Verification code sent to your email. Please verify to complete registration.",
           registrationData := some { name := trimStr nm, hashedPassword := bcryptHash pw,
                                      accountType := a, companyName := cn } }) := by
  unfold register
  simp only []
  rw [if_neg (by simp [hv]), if_neg (by simp [hr]), if_neg (by simp [hu]), if_neg (by simp [hreq])]

theorem forgotPassword_insert_path (env : Env) (db : AuthDB) (now : Nat)
    (e c : String) (m : MailOutcome)
    (he : isEmail e = true) (hu : userEmailExists db e = true) :
    forgotPassword env db now e c m
      = ({ db with otps := deleteOtpsByEmailPurpose db.otps e "reset-password"
             ++ [{ email := e, code := c, purpose := "reset-password", expiresAt := now + 10 }] },
         { status := 200, success := some true, message := forgotPasswordMessage }) := by
  unfold forgotPassword
  simp only []
  rw [if_neg (by simp [he]), if_neg (by simp [hu])]

theorem login_otp_path (env : Env) (db : AuthDB) (now : Nat) (e pw : String)
    (rok : Bool) (c : String) (u : UserRow)
    (he : isEmail e = true) (hp : ¬ pw = "")
    (hr : (env.recaptchaConfigured && !rok) = false)
    (hfind : findUserByEmail db e = some u)
    (hbc : bcryptCheck pw u.password = true)
    (hotp : env.enableOtpOnLogin = true) :
    login env db now e pw rok c
      = ({ db with otps := deleteOtpsByEmail db.otps e
             ++ [{ email := e, code := c, purpose := "2fa", expiresAt := now + 10 }] },
         { status := 200, success := some true, message := "OTP sent to email",
           otpRequired := some true }) := by
  unfold login
  simp only []
  rw [if_neg (by simp [he, hp]), if_neg (by simp [hr]), hfind]
  simp only []
  rw [if_neg (by simp [hbc]), if_pos hotp]

theorem verifyEmail_success_otps (db : AuthDB) (now : Nat) (e c : String)
    (rd : Option RegistrationData)
    (h : (verifyEmail db now e c rd).2.status = 200) :
    (verifyEmail db now e c rd).1.otps = deleteOtpsByEmailPurpose db.otps e "register" := by
  unfold verifyEmail at *
  simp only [] at h ⊢
  split at h
  · simp [appError] at h
  · rename_i hg
    split at h
    · simp [appError] at h
    · rename_i r
      split at h
      · simp [appError] at h
      · rename_i hfields
        split at h
        · simp [appError] at h
        · rename_i hl
          split at h
          · simp [appError] at h
          · rename_i hex
            rw [if_neg hg, if_neg hfields, if_neg hl, if_neg hex, createAccount_otps]

theorem verifyEmail_success_guards (db : AuthDB) (now : Nat) (e c : String)
    (rd : Option RegistrationData)
    (h : (verifyEmail db now e c rd).2.status = 200) :
    ¬ e = "" ∧ ¬ c = "" := by
  unfold verifyEmail at h
  simp only [] at h
  split at h
  · simp [appError] at h
  · rename_i hg
    simpa using hg

theorem verifyEmail_success_rd (db : AuthDB) (now : Nat) (e c : String)
    (rd : Option RegistrationData)
    (h : (verifyEmail db now e c rd).2.status = 200) :
    ∃ r, rd = some r ∧ (r.name = "" || r.hashedPassword = "" || r.accountType = "") = false := by
  unfold verifyEmail at h
  simp only [] at h
  split at h
  · simp [appError] at h
  · rename_i hg
    split at h
    · simp [appError] at h
    · rename_i r
      split at h
      · simp [appError] at h
      · rename_i hfields
        exact ⟨r, rfl, by simpa using hfields⟩

theorem verifyEmail_invalid (db : AuthDB) (now : Nat) (e c : String)
    (r : RegistrationData) (h1 : ¬ e = "") (h2 : ¬ c = "")
    (hf : (r.name = "" || r.hashedPassword = "" || r.accountType = "") = false)
    (h3 : otpLookup db.otps e c "register" now = []) :
    verifyEmail db now e c (some r) = (db, appError "Invalid or expired verification code" 400) := by
  unfold verifyEmail
  simp only []
  have hg : ¬((decide (e = "") || decide (c = "")) = true) := by simp [h1, h2]
  have hl : (otpLookup db.otps e c "register" now).length = 0 := by simp [h3]
  rw [if_neg hg]
  rw [if_neg (by simp [hf] : ¬((decide (r.name = "") || decide (r.hashedPassword = "") || decide (r.accountType = "")) = true))]
  rw [if_pos hl]

theorem updateEmployment_pred (l : List EmploymentRow) (empId : Nat)
    (f : EmploymentRow → EmploymentRow) (P : EmploymentRow → Prop)
    (hP : ∀ e, P (f e)) :
    ∀ e2 ∈ updateEmployment l empId f, e2.id = empId → (∀ e, (f e).id = e.id) → P e2 := by
  intro e2 h2 hid hfid
  simp only [updateEmployment, List.mem_map] at h2
  obtain ⟨e0, he0, heq⟩ := h2
  by_cases h : e0.id = empId
  · rw [if_pos h] at heq
    rw [← heq]
    exact hP e0
  · rw [if_neg h] at heq
    rw [← heq] at hid
    exact absurd hid h

theorem employments_any_of_mem (l : List EmploymentRow) (empId : Nat)
    (e : EmploymentRow) (he : e ∈ l) (hid : e.id = empId) :
    (l.any (fun x => x.id == empId)) = true :=
  List.any_eq_true.mpr ⟨e, he, by simp [hid]⟩

theorem adminVerify_hit (st : VerifState) (empId actorId : Nat) (notes : Option String)
    (e : EmploymentRow) (he : e ∈ st.employments) (hid : e.id = empId) :
    adminVerifyEmployment st empId actorId notes
      = ({ st with employments := updateEmployment st.employments empId (fun x => { x with verificationStatus := "verified", verifiedBy := some actorId, notes := notes }) },
         { status := 200, success := some true, message := "Employment verified successfully" }) := by
  unfold adminVerifyEmployment
  simp only []
  rw [if_neg (by simp [employments_any_of_mem st.employments empId e he hid])]

theorem adminReject_hit (st : VerifState) (empId actorId : Nat) (reason : Option String)
    (e : EmploymentRow) (he : e ∈ st.employments) (hid : e.id = empId) :
    adminRejectEmployment st empId actorId reason
      = ({ st with employments := updateEmployment st.employments empId (fun x => { x with verificationStatus := "rejected", verifiedBy := some actorId, rejectionReason := reason }) },
         { status := 200, success := some true, message := "Employment rejected" }) := by
  unfold adminRejectEmployment
  simp only []
  rw [if_neg (by simp [employments_any_of_mem st.employments empId e he hid])]

theorem companyApprove_hit (st : VerifState) (empId userId : Nat) (notes : Option String)
    (comp : CompanyRow)
    (hfind : st.companies.find? (fun c => c.userId == userId) = some comp)
    (howned : employmentOwnedBy st empId comp = true) :
    companyApproveVerification st empId userId notes
      = ({ st with employments := updateEmployment st.employments empId (fun x => { x with verificationStatus := "verified", verifiedBy := some userId, notes := notes }) },
         { status := 200, message := "Employment verified successfully" }) := by
  unfold companyApproveVerification
  simp only []
  rw [hfind]
  simp only []
  rw [if_neg (by simp [howned])]

theorem companyReject_hit (st : VerifState) (empId userId : Nat) (reason : Option String)
    (comp : CompanyRow)
    (hreason : reasonPresent reason = true)
    (hfind : st.companies.find? (fun c => c.userId == userId) = some comp)
    (howned : employmentOwnedBy st empId comp = true) :
    companyRejectVerification st empId userId reason
      = ({ st with employments := updateEmployment st.employments empId (fun x => { x with verificationStatus := "rejected", verifiedBy := some userId, rejectionReason := reason }) },
         { status := 200, message := "Verification request rejected" }) := by
  unfold companyRejectVerification
  simp only []
  rw [if_neg (by simp [hreason]), hfind]
  simp only []
  rw [if_neg (by simp [howned])]

theorem otpRequest_success_inv (env : Env) (db : AuthDB) (now : Nat) (e p c : String)
    (m : MailOutcome) (h : (otpRequest env db now e p c m).2.status = 200) :
    ¬ e = "" ∧ ¬(p = "register" ∧ userEmailExists db e = true)
      ∧ ¬(p = "login" ∧ userEmailExists db e = false) := by
  unfold otpRequest at h
  simp only [] at h
  split at h
  · simp [appError] at h
  · rename_i hne
    split at h
    · simp [appError] at h
    · rename_i hreg
      split at h
      · simp [appError] at h
      · rename_i hlog
        simp at hreg hlog
        refine ⟨hne, ?_, ?_⟩
        · intro hc
          rw [hreg hc.1] at hc
          simp at hc
        · intro hc
          rw [hlog hc.1] at hc
          simp at hc

theorem otpLookup_append (l1 l2 : List OtpRow) (e c p : String) (now : Nat) :
    otpLookup (l1 ++ l2) e c p now = otpLookup l1 e c p now ++ otpLookup l2 e c p now := by
  simp [otpLookup, List.filter_append]

theorem otpLookup_delete_email_same (l : List OtpRow) (e c p : String) (now : Nat) :
    otpLookup (deleteOtpsByEmail l e) e c p now = [] := by
  rw [List.eq_nil_iff_forall_not_mem]
  intro r hr
  rw [mem_otpLookup] at hr
  obtain ⟨hmem, he, _⟩ := hr
  simp [deleteOtpsByEmail, List.mem_filter] at hmem
  exact hmem.2 he

theorem otpLookup_fresh_append (F : List OtpRow) (row : OtpRow) (e2 c p : String) (now2 : Nat)
    (hfresh : ∀ r ∈ F, ¬ r.code = c) (hc : row.code = c) (hp : row.purpose = p) :
    (¬ otpLookup (F ++ [row]) e2 c p now2 = []) ↔ (e2 = row.email ∧ now2 < row.expiresAt) := by
  constructor
  · intro hne
    obtain ⟨r, hr⟩ := List.exists_mem_of_ne_nil _ hne
    rw [mem_otpLookup] at hr
    obtain ⟨hmem, he, hcode, _, hexp⟩ := hr
    rcases List.mem_append.mp hmem with hF | hrow
    · exact absurd hcode (hfresh r hF)
    · have : r = row := by simpa using hrow
      subst this
      exact ⟨he.symm, hexp⟩
  · intro ⟨he, hexp⟩
    apply List.ne_nil_of_mem (a := row)
    rw [mem_otpLookup]
    exact ⟨List.mem_append.mpr (Or.inr (by simp)), he.symm, hc, hp, hexp⟩

/-- C1 counterexample: an employment record already in the terminal state
verified is changed to rejected by the admin reject endpoint, which answers
200, so a transition into a terminal state does not require the record to
be pending or in_review. -/
theorem c1_counterexample :
    (adminRejectEmployment
        { employments := [{ id := 1, companyId := none, companyName := none,
                            verificationStatus := "verified", verifiedBy := none,
                            rejectionReason := none, notes := none }], companies := [] }
        1 9 (some "fraud")).2.status = 200 ∧
    (adminRejectEmployment
        { employments := [{ id := 1, companyId := none, companyName := none,
                            verificationStatus := "verified", verifiedBy := none,
                            rejectionReason := none, notes := none }], companies := [] }
        1 9 (some "fraud")).1.employments.map (fun e => e.verificationStatus) = ["rejected"] := by
  decide

/-- C1 amended: none of the four endpoints checks the current verification
status. For any existing record (and, for the company endpoints, any record
passing the ownership check) the approve and reject operations answer 200
and overwrite the status with verified or rejected, whatever the prior
status was, including the terminal states. -/
theorem c1_no_status_guard :
    (∀ (st : VerifState) (empId actorId : Nat) (notes : Option String) (e : EmploymentRow),
      e ∈ st.employments → e.id = empId →
      (adminVerifyEmployment st empId actorId notes).2.status = 200 ∧
      ∀ e2 ∈ (adminVerifyEmployment st empId actorId notes).1.employments,
        e2.id = empId → e2.verificationStatus = "verified") ∧
    (∀ (st : VerifState) (empId actorId : Nat) (reason : Option String) (e : EmploymentRow),
      e ∈ st.employments → e.id = empId →
      (adminRejectEmployment st empId actorId reason).2.status = 200 ∧
      ∀ e2 ∈ (adminRejectEmployment st empId actorId reason).1.employments,
        e2.id = empId → e2.verificationStatus = "rejected") ∧
    (∀ (st : VerifState) (empId userId : Nat) (notes : Option String) (comp : CompanyRow),
      st.companies.find? (fun c => c.userId == userId) = some comp →
      employmentOwnedBy st empId comp = true →
      (companyApproveVerification st empId userId notes).2.status = 200 ∧
      ∀ e2 ∈ (companyApproveVerification st empId userId notes).1.employments,
        e2.id = empId → e2.verificationStatus = "verified") ∧
    (∀ (st : VerifState) (empId userId : Nat) (reason : Option String) (comp : CompanyRow),
      reasonPresent reason = true →
      st.companies.find? (fun c => c.userId == userId) = some comp →
      employmentOwnedBy st empId comp = true →
      (companyRejectVerification st empId userId reason).2.status = 200 ∧
      ∀ e2 ∈ (companyRejectVerification st empId userId reason).1.employments,
        e2.id = empId → e2.verificationStatus = "rejected") := by
  refine ⟨?_, ?_, ?_, ?_⟩
  · intro st empId actorId notes e he hid
    rw [adminVerify_hit st empId actorId notes e he hid]
    refine ⟨rfl, ?_⟩
    intro e2 h2 hid2
    exact updateEmployment_pred st.employments empId _ (fun x => x.verificationStatus = "verified")
      (fun _ => rfl) e2 h2 hid2 (fun _ => rfl)
  · intro st empId actorId reason e he hid
    rw [adminReject_hit st empId actorId reason e he hid]
    refine ⟨rfl, ?_⟩
    intro e2 h2 hid2
    exact updateEmployment_pred st.employments empId _ (fun x => x.verificationStatus = "rejected")
      (fun _ => rfl) e2 h2 hid2 (fun _ => rfl)
  · intro st empId userId notes comp hfind howned
    rw [companyApprove_hit st empId userId notes comp hfind howned]
    refine ⟨rfl, ?_⟩
    intro e2 h2 hid2
    exact updateEmployment_pred st.employments empId _ (fun x => x.verificationStatus = "verified")
      (fun _ => rfl) e2 h2 hid2 (fun _ => rfl)
  · intro st empId userId reason comp hreason hfind howned
    rw [companyReject_hit st empId userId reason comp hreason hfind howned]
    refine ⟨rfl, ?_⟩
    intro e2 h2 hid2
    exact updateEmployment_pred st.employments empId _ (fun x => x.verificationStatus = "rejected")
      (fun _ => rfl) e2 h2 hid2 (fun _ => rfl)

/-- C1 witness: the amended theorem applied to a concrete state in which the
single record is already verified; the admin reject endpoint still answers
200. -/
theorem c1_no_status_guard_witness :
    (adminRejectEmployment
        { employments := [{ id := 1, companyId := none, companyName := none,
                            verificationStatus := "verified", verifiedBy := none,
                            rejectionReason := none, notes := none }], companies := [] }
        1 9 (some "fraud")).2.status = 200 :=
  (c1_no_status_guard.2.1
    { employments := [{ id := 1, companyId := none, companyName := none,
                        verificationStatus := "verified", verifiedBy := none,
                        rejectionReason := none, notes := none }], companies := [] }
    1 9 (some "fraud")
    { id := 1, companyId := none, companyName := none,
      verificationStatus := "verified", verifiedBy := none,
      rejectionReason := none, notes := none }
    (by decide) (by decide)).1

/-- C7 counterexample: the admin reject endpoint, given a body with no
reason, still answers 200 and moves a pending record to rejected with a
NULL stored reason, so the requirement that every reject carries a
non-empty reason fails on the admin endpoint. -/
theorem c7_counterexample :
    (adminRejectEmployment
        { employments := [{ id := 1, companyId := none, companyName := none,
                            verificationStatus := "pending", verifiedBy := none,
                            rejectionReason := none, notes := none }], companies := [] }
        1 9 none).2.status = 200 ∧
    (adminRejectEmployment
        { employments := [{ id := 1, companyId := none, companyName := none,
                            verificationStatus := "pending", verifiedBy := none,
                            rejectionReason := none, notes := none }], companies := [] }
        1 9 none).1.employments.map (fun e => e.verificationStatus) = ["rejected"] := by
  decide

/-- C7 amended: only the company reject endpoint requires a reason - a
missing or empty reason is answered 400 with no state change. The admin
reject endpoint performs the rejection without any reason check, storing
the reason column as NULL. -/
theorem c7_reject_reason_check :
    (∀ (st : VerifState) (empId userId : Nat) (reason : Option String),
      reasonPresent reason = false →
      companyRejectVerification st empId userId reason
        = (st, { status := 400, message := "Rejection reason is required" })) ∧
    (∀ (st : VerifState) (empId actorId : Nat) (e : EmploymentRow),
      e ∈ st.employments → e.id = empId →
      (adminRejectEmployment st empId actorId none).2.status = 200 ∧
      ∀ e2 ∈ (adminRejectEmployment st empId actorId none).1.employments,
        e2.id = empId → e2.verificationStatus = "rejected" ∧ e2.rejectionReason = none) := by
  constructor
  · intro st empId userId reason hre
    unfold companyRejectVerification
    simp only []
    rw [if_pos (by simp [hre])]
  · intro st empId actorId e he hid
    rw [adminReject_hit st empId actorId none e he hid]
    refine ⟨rfl, ?_⟩
    intro e2 h2 hid2
    exact updateEmployment_pred st.employments empId _
      (fun x => x.verificationStatus = "rejected" ∧ x.rejectionReason = none)
      (fun _ => ⟨rfl, rfl⟩) e2 h2 hid2 (fun _ => rfl)

/-- C7 witness: the company reject endpoint at a concrete state with an
empty reason answers 400 and leaves the state unchanged. -/
theorem c7_reject_reason_check_witness :
    companyRejectVerification
        { employments := [{ id := 1, companyId := some 5, companyName := none,
                            verificationStatus := "pending", verifiedBy := none,
                            rejectionReason := none, notes := none }],
          companies := [{ id := 5, userId := 2, name := some "Acme", slug := "acme" }] }
        1 2 (some "")
      = ({ employments := [{ id := 1, companyId := some 5, companyName := none,
                             verificationStatus := "pending", verifiedBy := none,
                             rejectionReason := none, notes := none }],
           companies := [{ id := 5, userId := 2, name := some "Acme", slug := "acme" }] },
         { status := 400, message := "Rejection reason is required" }) :=
  c7_reject_reason_check.1
    { employments := [{ id := 1, companyId := some 5, companyName := none,
                        verificationStatus := "pending", verifiedBy := none,
                        rejectionReason := none, notes := none }],
      companies := [{ id := 5, userId := 2, name := some "Acme", slug := "acme" }] }
    1 2 (some "") (by decide)

/-- C3 counterexample: the OTP register path at otp/verify inserts the
client-supplied account type without validation; with accountType admin a
user row outside the candidate/company set is created and a token is
returned. -/
theorem c3_counterexample :
    (otpVerify { users := [], candidates := [], companies := [],
                 otps := [{ email := "eve@x.com", code := "111111", purpose := "register", expiresAt := 10 }],
                 nextUserId := 1, nextCompanyId := 1 }
        0 "eve@x.com" "111111" "register" (some "Eve") "admin").2.status = 200 ∧
    (otpVerify { users := [], candidates := [], companies := [],
                 otps := [{ email := "eve@x.com", code := "111111", purpose := "register", expiresAt := 10 }],
                 nextUserId := 1, nextCompanyId := 1 }
        0 "eve@x.com" "111111" "register" (some "Eve") "admin").1.users.map (fun u => u.accountType)
      = ["admin"] := by
  decide

/-- C3 amended: the register endpoint does validate the account type - any
value outside candidate/company is answered 400 with no state change - but
the OTP register path at otp/verify inserts whatever accountType the
client sent, so the property holds only for the register endpoint, not for
every registration flow. -/
theorem c3_account_type_validation :
    (∀ (env : Env) (db : AuthDB) (now : Nat) (nm e pw a : String) (cn : Option String)
        (rok : Bool) (c : String) (m : MailOutcome),
      ¬ a = "candidate" → ¬ a = "company" →
      register env db now nm e pw a cn rok c m = (db, validationErrorResponse)) ∧
    (∀ (db : AuthDB) (now : Nat) (e c : String) (nm : Option String) (a : String),
      (otpVerify db now e c "register" nm a).2.status = 200 →
      ∀ u ∈ (otpVerify db now e c "register" nm a).1.users,
        ¬ u ∈ db.users → u.accountType = a) := by
  constructor
  · intro env db now nm e pw a cn rok c m h1 h2
    unfold register
    simp only []
    rw [if_pos (by simp [validRegisterInput, h1, h2])]
  · intro db now e c nm a h u hu hnot
    rw [otpVerify_register_success_users db now e c nm a h] at hu
    rcases List.mem_append.mp hu with hmem | hmem
    · exact absurd hmem hnot
    · have : u = { id := db.nextUserId, email := e, password := none, accountType := a, name := nm } := by
        simpa using hmem
      rw [this]

/-- C3 witness: the register endpoint answers 400 validation failure at a
concrete request with accountType admin and leaves the database unchanged. -/
theorem c3_account_type_validation_witness :
    register { requireOtpOnRegister := true, enableOtpOnLogin := false,
               recaptchaConfigured := false, smtpHost := none, smtpUser := none }
        { users := [], candidates := [], companies := [], otps := [], nextUserId := 1, nextCompanyId := 1 }
        0 "Eve" "eve@x.com" "password123" "admin" none true "111111" MailOutcome.transportUnavailable
      = ({ users := [], candidates := [], companies := [], otps := [], nextUserId := 1, nextCompanyId := 1 },
         validationErrorResponse) :=
  c3_account_type_validation.1
    { requireOtpOnRegister := true, enableOtpOnLogin := false,
      recaptchaConfigured := false, smtpHost := none, smtpUser := none }
    { users := [], candidates := [], companies := [], otps := [], nextUserId := 1, nextCompanyId := 1 }
    0 "Eve" "eve@x.com" "password123" "admin" none true "111111" MailOutcome.transportUnavailable
    (by decide) (by decide)

/-- C10: every user account created through the OTP register path at
otp/verify is inserted with a NULL stored password: on success the users
table is the old table plus exactly one row whose password field is none. -/
theorem c10_otp_register_null_password (db : AuthDB) (now : Nat) (e c : String)
    (nm : Option String) (a : String)
    (h : (otpVerify db now e c "register" nm a).2.status = 200) :
    (otpVerify db now e c "register" nm a).1.users
      = db.users ++ [{ id := db.nextUserId, email := e, password := none, accountType := a, name := nm }] :=
  otpVerify_register_success_users db now e c nm a h

/-- C10 witness: the theorem applied at a concrete database and request in
which the OTP register verification succeeds. -/
theorem c10_otp_register_null_password_witness :
    (otpVerify { users := [], candidates := [], companies := [],
                 otps := [{ email := "eve@x.com", code := "111111", purpose := "register", expiresAt := 10 }],
                 nextUserId := 1, nextCompanyId := 1 }
        0 "eve@x.com" "111111" "register" (some "Eve") "candidate").1.users
      = [] ++ [{ id := 1, email := "eve@x.com", password := none, accountType := "candidate", name := some "Eve" }] :=
  c10_otp_register_null_password
    { users := [], candidates := [], companies := [],
      otps := [{ email := "eve@x.com", code := "111111", purpose := "register", expiresAt := 10 }],
      nextUserId := 1, nextCompanyId := 1 }
    0 "eve@x.com" "111111" (some "Eve") "candidate" (by decide)

/-- C4: a one-time code is single-use. After a verification call succeeds
at otp/verify or verify-email, repeating the same call on the resulting
state with the same email, code and purpose returns exactly the
invalid-or-expired 400 error and leaves the state unchanged, so no token
or account can be produced by the second call. -/
theorem c4_code_single_use :
    (∀ (db : AuthDB) (now now2 : Nat) (e c p : String) (nm nm2 : Option String) (a a2 : String),
      (otpVerify db now e c p nm a).2.status = 200 →
      otpVerify (otpVerify db now e c p nm a).1 now2 e c p nm2 a2
        = ((otpVerify db now e c p nm a).1, appError "Invalid or expired code" 400)) ∧
    (∀ (db : AuthDB) (now now2 : Nat) (e c : String) (rd : Option RegistrationData),
      (verifyEmail db now e c rd).2.status = 200 →
      verifyEmail (verifyEmail db now e c rd).1 now2 e c rd
        = ((verifyEmail db now e c rd).1, appError "Invalid or expired verification code" 400)) := by
  constructor
  · intro db now now2 e c p nm nm2 a a2 h
    obtain ⟨h1, h2⟩ := otpVerify_success_guards db now e c p nm a h
    apply otpVerify_invalid _ now2 e c p nm2 a2 h1 h2
    rw [otpVerify_success_otps db now e c p nm a h]
    exact otpLookup_delete_same db.otps (normalizeEmailForOtp e) c p now2
  · intro db now now2 e c rd h
    obtain ⟨h1, h2⟩ := verifyEmail_success_guards db now e c rd h
    obtain ⟨r, hrd, hf⟩ := verifyEmail_success_rd db now e c rd h
    subst hrd
    apply verifyEmail_invalid _ now2 e c r h1 h2 hf
    rw [verifyEmail_success_otps db now e c (some r) h]
    exact otpLookup_delete_same db.otps e c "register" now2

/-- C4 witness: at a concrete database the first otp/verify call succeeds
and the immediate repetition returns the invalid-or-expired 400 error with
the state unchanged. -/
theorem c4_code_single_use_witness :
    otpVerify (otpVerify sampleOtpDb 0 "eve@x.com" "111111" "register" (some "Eve") "candidate").1
      5 "eve@x.com" "111111" "register" (some "Eve") "candidate"
      = ((otpVerify sampleOtpDb 0 "eve@x.com" "111111" "register" (some "Eve") "candidate").1,
         appError "Invalid or expired code" 400) :=
  c4_code_single_use.1 sampleOtpDb 0 5 "eve@x.com" "111111" "register"
    (some "Eve") (some "Eve") "candidate" "candidate" (by decide)

/-- C5: each code-request operation deletes the prior codes covering the
key it inserts before inserting the new row, so after otp/request, the
OTP branch of register, or forgot-password for an existing account,
exactly one stored code exists for the inserted (email, purpose) key; and
after requesting twice only the later code is found by the verification
lookup. -/
theorem c5_at_most_one_active_code :
    (∀ (env : Env) (db : AuthDB) (now : Nat) (e p c : String) (m : MailOutcome),
      (otpRequest env db now e p c m).2.status = 200 →
      activeKeyCount (otpRequest env db now e p c m).1.otps (normalizeEmailForOtp e) p = 1) ∧
    (∀ (env : Env) (db : AuthDB) (now : Nat) (nm e pw a : String) (cn : Option String)
        (rok : Bool) (c : String) (m : MailOutcome),
      validRegisterInput nm e pw a = true → (env.recaptchaConfigured && !rok) = false →
      userEmailExists db e = false → env.requireOtpOnRegister = true →
      activeKeyCount (register env db now nm e pw a cn rok c m).1.otps e "register" = 1) ∧
    (∀ (env : Env) (db : AuthDB) (now : Nat) (e c : String) (m : MailOutcome),
      isEmail e = true → userEmailExists db e = true →
      activeKeyCount (forgotPassword env db now e c m).1.otps e "reset-password" = 1) ∧
    (∀ (env : Env) (db : AuthDB) (now now2 : Nat) (e p c1 c2 : String) (m1 m2 : MailOutcome),
      (otpRequest env db now e p c1 m1).2.status = 200 → ¬ c1 = c2 → now2 < now + 10 →
      otpLookup (otpRequest env (otpRequest env db now e p c1 m1).1 now e p c2 m2).1.otps
          (normalizeEmailForOtp e) c1 p now2 = [] ∧
      ¬ otpLookup (otpRequest env (otpRequest env db now e p c1 m1).1 now e p c2 m2).1.otps
          (normalizeEmailForOtp e) c2 p now2 = []) := by
  refine ⟨?_, ?_, ?_, ?_⟩
  · intro env db now e p c m h
    obtain ⟨h1, h2, h3⟩ := otpRequest_success_inv env db now e p c m h
    rw [otpRequest_path env db now e p c m h1 h2 h3]
    exact activeKeyCount_delete_insert_email db.otps
      { email := normalizeEmailForOtp e, code := c, purpose := p, expiresAt := now + 10 }
  · intro env db now nm e pw a cn rok c m hv hr hu hreq
    rw [register_otp_path env db now nm e pw a cn rok c m hv hr hu hreq]
    exact activeKeyCount_delete_insert_key db.otps
      { email := e, code := c, purpose := "register", expiresAt := now + 10 }
  · intro env db now e c m he hu
    rw [forgotPassword_insert_path env db now e c m he hu]
    exact activeKeyCount_delete_insert_key db.otps
      { email := e, code := c, purpose := "reset-password", expiresAt := now + 10 }
  · intro env db now now2 e p c1 c2 m1 m2 h hc hlt
    obtain ⟨h1, h2, h3⟩ := otpRequest_success_inv env db now e p c1 m1 h
    have hd1 : (otpRequest env db now e p c1 m1).1
        = { db with otps := deleteOtpsByEmail db.otps (normalizeEmailForOtp e)
              ++ [{ email := normalizeEmailForOtp e, code := c1, purpose := p, expiresAt := now + 10 }] } := by
      rw [otpRequest_path env db now e p c1 m1 h1 h2 h3]
    rw [hd1]
    rw [otpRequest_path env
      ({ db with otps := deleteOtpsByEmail db.otps (normalizeEmailForOtp e)
          ++ [{ email := normalizeEmailForOtp e, code := c1, purpose := p, expiresAt := now + 10 }] })
      now e p c2 m2 h1 h2 h3]
    constructor
    · rw [otpLookup_append, otpLookup_delete_email_same]
      simp [otpLookup, List.filter, Ne.symm hc]
    · apply List.ne_nil_of_mem
        (a := { email := normalizeEmailForOtp e, code := c2, purpose := p, expiresAt := now + 10 })
      rw [mem_otpLookup]
      exact ⟨List.mem_append.mpr (Or.inr (by simp)), rfl, rfl, rfl, hlt⟩

/-- C5 witness: a concrete otp/request that succeeds leaves exactly one
stored code for the normalized email and requested purpose. -/
theorem c5_at_most_one_active_code_witness :
    activeKeyCount (otpRequest sampleEnv emptyAuthDb 0 "eve@x.com" "register" "111111"
        MailOutcome.transportUnavailable).1.otps (normalizeEmailForOtp "eve@x.com") "register" = 1 :=
  c5_at_most_one_active_code.1 sampleEnv emptyAuthDb 0 "eve@x.com" "register" "111111"
    MailOutcome.transportUnavailable (by decide)

/-- C6: every insert path of a one-time code stores the expiry as the
current time plus 10 minutes (otp/request, the OTP branch of register,
forgot-password, and the login 2fa branch), and the otp/verify lookup
rejects with the invalid-or-expired 400 error whenever every stored row
matching the email, code and purpose has an expiry at or before now. -/
theorem c6_code_expiry :
    (∀ (env : Env) (db : AuthDB) (now : Nat) (e p c : String) (m : MailOutcome),
      (otpRequest env db now e p c m).2.status = 200 →
      { email := normalizeEmailForOtp e, code := c, purpose := p, expiresAt := now + 10 : OtpRow }
        ∈ (otpRequest env db now e p c m).1.otps) ∧
    (∀ (env : Env) (db : AuthDB) (now : Nat) (nm e pw a : String) (cn : Option String)
        (rok : Bool) (c : String) (m : MailOutcome),
      validRegisterInput nm e pw a = true → (env.recaptchaConfigured && !rok) = false →
      userEmailExists db e = false → env.requireOtpOnRegister = true →
      { email := e, code := c, purpose := "register", expiresAt := now + 10 : OtpRow }
        ∈ (register env db now nm e pw a cn rok c m).1.otps) ∧
    (∀ (env : Env) (db : AuthDB) (now : Nat) (e c : String) (m : MailOutcome),
      isEmail e = true → userEmailExists db e = true →
      { email := e, code := c, purpose := "reset-password", expiresAt := now + 10 : OtpRow }
        ∈ (forgotPassword env db now e c m).1.otps) ∧
    (∀ (env : Env) (db : AuthDB) (now : Nat) (e pw : String) (rok : Bool) (c : String)
        (u : UserRow),
      isEmail e = true → ¬ pw = "" → (env.recaptchaConfigured && !rok) = false →
      findUserByEmail db e = some u → bcryptCheck pw u.password = true →
      env.enableOtpOnLogin = true →
      { email := e, code := c, purpose := "2fa", expiresAt := now + 10 : OtpRow }
        ∈ (login env db now e pw rok c).1.otps) ∧
    (∀ (db : AuthDB) (now : Nat) (e c p : String) (nm : Option String) (a : String),
      ¬ e = "" → ¬ c = "" →
      (∀ r ∈ db.otps, r.email = normalizeEmailForOtp e → r.code = c → r.purpose = p →
        r.expiresAt ≤ now) →
      otpVerify db now e c p nm a = (db, appError "Invalid or expired code" 400)) := by
  refine ⟨?_, ?_, ?_, ?_, ?_⟩
  · intro env db now e p c m h
    obtain ⟨h1, h2, h3⟩ := otpRequest_success_inv env db now e p c m h
    rw [otpRequest_path env db now e p c m h1 h2 h3]
    simp
  · intro env db now nm e pw a cn rok c m hv hr hu hreq
    rw [register_otp_path env db now nm e pw a cn rok c m hv hr hu hreq]
    simp
  · intro env db now e c m he hu
    rw [forgotPassword_insert_path env db now e c m he hu]
    simp
  · intro env db now e pw rok c u he hp hr hfind hbc hotp
    rw [login_otp_path env db now e pw rok c u he hp hr hfind hbc hotp]
    simp
  · intro db now e c p nm a h1 h2 hexp
    apply otpVerify_invalid db now e c p nm a h1 h2
    unfold otpLookup
    rw [List.filter_eq_nil_iff]
    intro r hr
    simp only [decide_eq_true_eq]
    intro hcon
    exact absurd hcon.2.2.2 (Nat.not_lt.mpr (hexp r hr hcon.1 hcon.2.1 hcon.2.2.1))

/-- C6 witness: a concrete otp/request stores its code with expiry 10
minutes after the request time. -/
theorem c6_code_expiry_witness :
    { email := "eve@x.com", code := "111111", purpose := "register", expiresAt := 10 : OtpRow }
      ∈ (otpRequest sampleEnv emptyAuthDb 0 "eve@x.com" "register" "111111"
          MailOutcome.transportUnavailable).1.otps :=
  c6_code_expiry.1 sampleEnv emptyAuthDb 0 "eve@x.com" "register" "111111"
    MailOutcome.transportUnavailable (by decide)

/-- C2 counterexample: the register flow stores the one-time code under the
raw email A@X.com, and verify-email looks the code up with the raw
submitted string, so the case variant a@x.com - which normalizes to the
same address - is answered with the invalid-or-expired 400 error instead
of finding the code. Normalization is therefore not applied uniformly in
both directions across all flows. -/
theorem c2_counterexample :
    normalizeEmailForOtp "a@x.com" = normalizeEmailForOtp "A@X.com" ∧
    (register sampleEnv emptyAuthDb 0 "Ann" "A@X.com" "password123" "candidate" none true "222222"
        MailOutcome.transportUnavailable).1.otps
      = [{ email := "A@X.com", code := "222222", purpose := "register", expiresAt := 10 }] ∧
    (verifyEmail (register sampleEnv emptyAuthDb 0 "Ann" "A@X.com" "password123" "candidate" none true "222222"
          MailOutcome.transportUnavailable).1 0 "a@x.com" "222222"
        (some { name := "Ann", hashedPassword := bcryptHash "password123",
                accountType := "candidate", companyName := none })).2
      = appError "Invalid or expired verification code" 400 := by
  decide

/-- C2 amended: trim-plus-lowercase normalization is applied in both
directions only in the otp/request and otp/verify pair - there a code
stored for e is found under any variant e2 with the same normalization.
The register/verify-email, login/verify-login-otp and
forgot-password/reset-password pairs store and look up the raw email
string, so their stored code is found exactly when the submitted email
equals the stored one character for character. -/
theorem c2_normalization_per_flow :
    (∀ (env : Env) (db : AuthDB) (now now2 : Nat) (e e2 p c : String) (m : MailOutcome),
      normalizeEmailForOtp e2 = normalizeEmailForOtp e →
      (otpRequest env db now e p c m).2.status = 200 → now2 < now + 10 →
      ¬ otpLookup (otpRequest env db now e p c m).1.otps (normalizeEmailForOtp e2) c p now2 = []) ∧
    (∀ (env : Env) (db : AuthDB) (now now2 : Nat) (nm e pw a : String) (cn : Option String)
        (rok : Bool) (c : String) (m : MailOutcome),
      validRegisterInput nm e pw a = true → (env.recaptchaConfigured && !rok) = false →
      userEmailExists db e = false → env.requireOtpOnRegister = true →
      (∀ r ∈ db.otps, ¬ r.code = c) →
      ∀ e2, (¬ otpLookup (register env db now nm e pw a cn rok c m).1.otps e2 c "register" now2 = [])
        ↔ (e2 = e ∧ now2 < now + 10)) ∧
    (∀ (env : Env) (db : AuthDB) (now now2 : Nat) (e pw : String) (rok : Bool) (c : String)
        (u : UserRow),
      isEmail e = true → ¬ pw = "" → (env.recaptchaConfigured && !rok) = false →
      findUserByEmail db e = some u → bcryptCheck pw u.password = true →
      env.enableOtpOnLogin = true → (∀ r ∈ db.otps, ¬ r.code = c) →
      ∀ e2, (¬ otpLookup (login env db now e pw rok c).1.otps e2 c "2fa" now2 = [])
        ↔ (e2 = e ∧ now2 < now + 10)) ∧
    (∀ (env : Env) (db : AuthDB) (now now2 : Nat) (e c : String) (m : MailOutcome),
      isEmail e = true → userEmailExists db e = true → (∀ r ∈ db.otps, ¬ r.code = c) →
      ∀ e2, (¬ otpLookup (forgotPassword env db now e c m).1.otps e2 c "reset-password" now2 = [])
        ↔ (e2 = e ∧ now2 < now + 10)) := by
  refine ⟨?_, ?_, ?_, ?_⟩
  · intro env db now now2 e e2 p c m hnorm h hlt
    obtain ⟨h1, h2, h3⟩ := otpRequest_success_inv env db now e p c m h
    rw [otpRequest_path env db now e p c m h1 h2 h3, hnorm]
    apply List.ne_nil_of_mem
      (a := { email := normalizeEmailForOtp e, code := c, purpose := p, expiresAt := now + 10 })
    rw [mem_otpLookup]
    exact ⟨List.mem_append.mpr (Or.inr (by simp)), rfl, rfl, rfl, hlt⟩
  · intro env db now now2 nm e pw a cn rok c m hv hr hu hreq hfresh e2
    rw [register_otp_path env db now nm e pw a cn rok c m hv hr hu hreq]
    exact otpLookup_fresh_append _ _ e2 c "register" now2
      (fun r hr2 => hfresh r (List.mem_filter.mp hr2).1) rfl rfl
  · intro env db now now2 e pw rok c u he hp hr hfind hbc hotp hfresh e2
    rw [login_otp_path env db now e pw rok c u he hp hr hfind hbc hotp]
    exact otpLookup_fresh_append _ _ e2 c "2fa" now2
      (fun r hr2 => hfresh r (List.mem_filter.mp hr2).1) rfl rfl
  · intro env db now now2 e c m he hu hfresh e2
    rw [forgotPassword_insert_path env db now e c m he hu]
    exact otpLookup_fresh_append _ _ e2 c "reset-password" now2
      (fun r hr2 => hfresh r (List.mem_filter.mp hr2).1) rfl rfl

/-- C2 witness: after a concrete otp/request for the unnormalized address
with a trailing space and capitals, the normalized lookup that otp/verify
performs on the lowercase variant finds the stored code. -/
theorem c2_normalization_per_flow_witness :
    ¬ otpLookup (otpRequest sampleEnv emptyAuthDb 0 "A@X.com " "register" "123456"
        MailOutcome.transportUnavailable).1.otps
      (normalizeEmailForOtp "a@x.com") "123456" "register" 5 = [] :=
  c2_normalization_per_flow.1 sampleEnv emptyAuthDb 0 5 "A@X.com " "a@x.com" "register" "123456"
    MailOutcome.transportUnavailable (by decide) (by decide) (by decide)

/-- C8: sendOtpEmail never throws - every environment and provider outcome
yields a structured Except.ok result, and a sent result arises only from an
actual delivery - while the otp/request handler answers 200 success with
the code stored for every provider outcome, including transport failure;
the register and forgot-password issuers likewise keep their success
status for every provider outcome. -/
theorem c8_mailer_never_throws :
    (∀ (env : Env) (o : MailOutcome), ∃ r, sendOtpEmail env o = Except.ok r) ∧
    (∀ (env : Env) (o : MailOutcome) (msgId : String),
      sendOtpEmail env o = Except.ok (MailResult.sent msgId) → o = MailOutcome.delivered msgId) ∧
    (∀ (env : Env) (db : AuthDB) (now : Nat) (e p c : String) (m : MailOutcome),
      ¬ e = "" → ¬(p = "register" ∧ userEmailExists db e = true) →
      ¬(p = "login" ∧ userEmailExists db e = false) →
      (otpRequest env db now e p c m).2.status = 200 ∧
      (otpRequest env db now e p c m).2.success = some true ∧
      { email := normalizeEmailForOtp e, code := c, purpose := p, expiresAt := now + 10 : OtpRow }
        ∈ (otpRequest env db now e p c m).1.otps) ∧
    (∀ (env : Env) (db : AuthDB) (now : Nat) (nm e pw a : String) (cn : Option String)
        (rok : Bool) (c : String) (m : MailOutcome),
      validRegisterInput nm e pw a = true → (env.recaptchaConfigured && !rok) = false →
      userEmailExists db e = false → env.requireOtpOnRegister = true →
      (register env db now nm e pw a cn rok c m).2.status = 201 ∧
      (register env db now nm e pw a cn rok c m).2.success = some true) ∧
    (∀ (env : Env) (db : AuthDB) (now : Nat) (e c : String) (m : MailOutcome),
      isEmail e = true → userEmailExists db e = true →
      (forgotPassword env db now e c m).2.status = 200 ∧
      (forgotPassword env db now e c m).2.success = some true) := by
  refine ⟨?_, ?_, ?_, ?_, ?_⟩
  · intro env o
    unfold sendOtpEmail
    split
    · exact ⟨_, rfl⟩
    · cases o <;> exact ⟨_, rfl⟩
  · intro env o msgId h
    unfold sendOtpEmail at h
    split at h
    · simp at h
    · cases o
      · simp at h
        rw [h]
      · simp at h
      · simp at h
  · intro env db now e p c m h1 h2 h3
    rw [otpRequest_path env db now e p c m h1 h2 h3]
    exact ⟨rfl, rfl, by simp⟩
  · intro env db now nm e pw a cn rok c m hv hr hu hreq
    rw [register_otp_path env db now nm e pw a cn rok c m hv hr hu hreq]
    exact ⟨rfl, rfl⟩
  · intro env db now e c m he hu
    rw [forgotPassword_insert_path env db now e c m he hu]
    exact ⟨rfl, rfl⟩

/-- C8 witness: with SMTP configured but the transport unavailable, a
concrete otp/request still answers 200 success and the code row is
stored. -/
theorem c8_mailer_never_throws_witness :
    (otpRequest { requireOtpOnRegister := true, enableOtpOnLogin := false,
                  recaptchaConfigured := false, smtpHost := some "smtp.x.com", smtpUser := some "mailer" }
        emptyAuthDb 0 "eve@x.com" "register" "111111" MailOutcome.transportUnavailable).2.status = 200 ∧
    (otpRequest { requireOtpOnRegister := true, enableOtpOnLogin := false,
                  recaptchaConfigured := false, smtpHost := some "smtp.x.com", smtpUser := some "mailer" }
        emptyAuthDb 0 "eve@x.com" "register" "111111" MailOutcome.transportUnavailable).2.success = some true ∧
    { email := normalizeEmailForOtp "eve@x.com", code := "111111", purpose := "register",
      expiresAt := 0 + 10 : OtpRow }
      ∈ (otpRequest { requireOtpOnRegister := true, enableOtpOnLogin := false,
                      recaptchaConfigured := false, smtpHost := some "smtp.x.com", smtpUser := some "mailer" }
          emptyAuthDb 0 "eve@x.com" "register" "111111" MailOutcome.transportUnavailable).1.otps :=
  c8_mailer_never_throws.2.2.1
    { requireOtpOnRegister := true, enableOtpOnLogin := false,
      recaptchaConfigured := false, smtpHost := some "smtp.x.com", smtpUser := some "mailer" }
    emptyAuthDb 0 "eve@x.com" "register" "111111" MailOutcome.transportUnavailable
    (by decide) (by decide) (by decide)

theorem forgotPassword_response (env : Env) (d : AuthDB) (n : Nat) (e c : String)
    (m : MailOutcome) :
    (forgotPassword env d n e c m).2
      = if isEmail e = true
        then { status := 200, success := some true, message := forgotPasswordMessage }
        else validationErrorResponse := by
  unfold forgotPassword
  simp only []
  by_cases he : isEmail e = true
  · rw [if_pos he, if_neg (by simp [he])]
    split <;> rfl
  · have he2 : isEmail e = false := by simpa using he
    rw [if_neg he, if_pos (by simp [he2])]

/-- C9: the forgot-password endpoint returns byte-for-byte identical
responses whether or not an account exists for the submitted email - for
the same email string, any two runs against any two database states,
times, generated codes and provider outcomes produce equal HTTP
responses, so the endpoint reveals nothing about account existence. -/
theorem c9_forgot_password_no_enumeration (e : String) (env1 env2 : Env) (d1 d2 : AuthDB)
    (n1 n2 : Nat) (c1 c2 : String) (m1 m2 : MailOutcome) :
    (forgotPassword env1 d1 n1 e c1 m1).2 = (forgotPassword env2 d2 n2 e c2 m2).2 := by
  rw [forgotPassword_response, forgotPassword_response]
